import Mathlib

/-!
Verification of the concurrent job-orchestration engine of the Products-add
repository. The definitions below are a shallow embedding of the Python
source: `src/services/gemini_service.py` (multi-key rotator),
`src/app.py` (job driver `process_ai_job_async`, per-product task
`process_single_product`, push `push_ai_product_to_shopify`, and the
per-store rate-limiter registry `get_shopify_rate_limiter`), and
`src/services/shopify_service.py` (`find_products_by_title`).
Python dicts are modelled as insertion-ordered association lists,
external calls as explicit oracle parameters, and exceptions as sum-type
results.
-/

namespace ProductsAdd

/-! ### Association-list model of Python dict -/

/-- Python `d.get(k, dflt)`. -/
def dictGet {α : Type} (d : List (String × α)) (k : String) (dflt : α) : α :=
  match d.lookup k with
  | some v => v
  | none => dflt

/-- Python `d[k] = v`: update in place if the key exists, else append
(insertion order preserved, as in CPython dicts). -/
def dictSet {α : Type} (d : List (String × α)) (k : String) (v : α) :
    List (String × α) :=
  match d with
  | [] => [(k, v)]
  | (k', v') :: rest =>
    if k' = k then (k, v) :: rest else (k', v') :: dictSet rest k v

/-! ### GeminiService: multi-key rotator (src/services/gemini_service.py) -/

/-- Python `f"Key {idx + 1}"` for a 0-based index. -/
def keyName (idx : Nat) : String := "Key " ++ toString (idx + 1)

/-- Mutable state of `GeminiService`. Clients are modelled by their key
index; `clients` is the set of lazily initialized key indices (dict keys),
`usage_counts` and `quota_exhausted` are the two per-key-name dicts. -/
structure GeminiState where
  api_keys : List String
  clients : List Nat
  key_names : List String
  current_key_index : Nat
  usage_counts : List (String × Nat)
  quota_exhausted : List (String × Bool)
  deriving Repr, DecidableEq

/-- `GeminiService.__init__` (lines 48-99). Note that `usage_counts` and
`quota_exhausted` are comprehensions over `range(len(self.clients))` in the
source, and `self.clients` is the empty dict at that point (lazy loading),
so both dicts start empty. -/
def geminiInit (api_keys : List String) : GeminiState :=
  let clients : List Nat := []
  { api_keys := api_keys
    clients := clients
    key_names := (List.range api_keys.length).map keyName
    current_key_index := 0
    usage_counts := (List.range clients.length).map (fun i => (keyName i, 0))
    quota_exhausted := (List.range clients.length).map (fun i => (keyName i, false)) }

/-- `_ensure_client_initialized` (lines 124-145): create the client for
`key_index` if not present. -/
def ensureClientInitialized (s : GeminiState) (key_index : Nat) : GeminiState :=
  if s.clients.contains key_index then s
  else { s with clients := s.clients ++ [key_index] }

/-- `are_all_keys_exhausted` (lines 205-219): true when `clients` is empty,
otherwise `all(self.quota_exhausted.values())`. -/
def areAllKeysExhausted (s : GeminiState) : Bool :=
  if s.clients.isEmpty then true
  else (s.quota_exhausted.map Prod.snd).all id

/-- `reset_quota_flags` (lines 221-228): set every existing entry to False. -/
def resetQuotaFlags (s : GeminiState) : GeminiState :=
  { s with quota_exhausted := s.quota_exhausted.map (fun e => (e.1, false)) }

/-- Body of the `while attempts < max_attempts` loop of `_get_next_client`
(lines 156-184), with the remaining attempt budget as fuel. -/
def getNextClientLoop (s : GeminiState) : Nat → Option (Nat × String) × GeminiState
  | 0 => (none, s)
  | att + 1 =>
    let s1 := ensureClientInitialized s s.current_key_index
    let client := s1.current_key_index
    let key_name := s1.key_names.getD s1.current_key_index ""
    let s2 := { s1 with current_key_index := (s1.current_key_index + 1) % s1.api_keys.length }
    if dictGet s2.quota_exhausted key_name false = false then
      let s3 := { s2 with
        usage_counts := dictSet s2.usage_counts key_name
          (dictGet s2.usage_counts key_name 0 + 1) }
      (some (client, key_name), s3)
    else
      getNextClientLoop s2 att

/-- `_get_next_client` (lines 147-184): round-robin selection skipping
exhausted keys; `(None, None)` if no key is found within
`len(self.api_keys)` attempts. -/
def getNextClient (s : GeminiState) : Option (Nat × String) × GeminiState :=
  if s.api_keys.isEmpty then (none, s)
  else getNextClientLoop s s.api_keys.length

/-- Outcome of the external Gemini API call made inside
`edit_product_image`, keyed by the key name that was selected.
`quotaError` stands for an exception whose text contains `429`,
`RESOURCE_EXHAUSTED` or `Quota exceeded`. -/
inductive ApiOutcome where
  | success (dataUrl : String)
  | noImageData
  | otherError
  | quotaError
  deriving Repr, DecidableEq

/-- Result of one `edit_product_image` call: a data URL, Python `None`, or
a raised `GeminiQuotaExhaustedError`. -/
inductive EditResult where
  | image (dataUrl : String)
  | noneResult
  | quotaExhaustedRaised
  deriving Repr, DecidableEq

/-- `edit_product_image` (lines 230-544), with the API interaction
abstracted by `apiCall`. Mirrors: client selection; the no-client branch
(lines 246-262), whose raise at line 256 sits inside the `try` of line 244
and is caught by the `except Exception` of line 500 — its message
(`Gemini API quota exhausted. ...`) matches none of the quota patterns
(`429`, `RESOURCE_EXHAUSTED`, `Quota exceeded`), so that branch falls
through to the other-errors return of line 544 and yields None; the
success / no-data / other-error returns; and the `except` quota branch
(lines 500-535) that marks the used key exhausted and — from inside the
handler, hence genuinely propagating — raises `GeminiQuotaExhaustedError`
iff `are_all_keys_exhausted()`. -/
def editProductImage (s : GeminiState) (apiCall : String → ApiOutcome) :
    EditResult × GeminiState :=
  match getNextClient s with
  | (none, s1) => (.noneResult, s1)
  | (some (_, key_name), s1) =>
    match apiCall key_name with
    | .success url => (.image url, s1)
    | .noImageData => (.noneResult, s1)
    | .otherError => (.noneResult, s1)
    | .quotaError =>
      let s2 := { s1 with quota_exhausted := dictSet s1.quota_exhausted key_name true }
      if areAllKeysExhausted s2 then (.quotaExhaustedRaised, s2)
      else (.noneResult, s2)

/-- C1: with two configured keys, the very first call that fails with a
quota-specific error on Key 1 already raises the terminal
`GeminiQuotaExhaustedError`, although Key 2 was never marked exhausted.
The claim says the rotator should only mark Key 1 and return None (retry
with next key), raising only when the 2nd (Kth) key is also exhausted.
The cause: `quota_exhausted` is initialized over the empty lazy `clients`
dict, so it only ever contains keys already marked exhausted and
`all(self.quota_exhausted.values())` is true after the first exhaustion,
contradicting the source's own comment "Raise custom exception only when
ALL keys are exhausted" (line 526). -/
theorem c1_first_quota_error_raises_terminal :
    (editProductImage (geminiInit ["keyA", "keyB"]) (fun _ => .quotaError)).1
        = .quotaExhaustedRaised
    ∧ dictGet (editProductImage (geminiInit ["keyA", "keyB"])
        (fun _ => .quotaError)).2.quota_exhausted (keyName 1) false = false := by
  constructor
  · rfl
  · rfl

/-! ### Job driver: `process_ai_job_async` (src/app.py lines 1649-1930)

The driver submits one task per product to a thread pool and iterates
completions via `as_completed`. We model the non-deterministic completion
order as an explicit list of completion events `(product, outcome)`; the
external stop request (the `/api/stop-ai-job` route setting the job row's
status to `stopped`, observed through `db.session.refresh`) is a function
of the completion count; the retry pool's completion order is a second
event list. Wall-clock computations (`_calculate_quota_reset_time`,
`time.sleep(seconds_until_reset + 60)`) are recorded as trace events. -/

/-- Job `status` values; `partialC` renders the source's `partial`. -/
inductive JobStatus where
  | pending | running | completed | error | stopped | partialC | waiting_for_quota_reset
  deriving Repr, DecidableEq

/-- Job `push_status` values; `partialC` renders the source's `partial`. -/
inductive PushStatusV where
  | not_started | in_progress | completed | cancelled | error | partialC
  deriving Repr, DecidableEq

/-- The `error_message` strings written by the driver, by content. -/
inductive JobMessage where
  | quotaWaiting (remaining : Nat)
  | resumedRetrying (n : Nat)
  | quotaAgainPendingCount (stillPending : Nat)
  | quotaAgainSome
  | completedWithFailures (failedCount : Nat)
  | partialCompletion (failedCount : Nat)
  | uncaught
  deriving Repr, DecidableEq

structure Job where
  status : JobStatus
  push_status : PushStatusV
  ai_products_created : Nat
  products_pushed : Nat
  error_message : Option JobMessage
  deriving Repr, DecidableEq

/-- How one task's `future.result()` presents to the driver loop:
normal `(True, None)`, normal `(False, msg)`, a raised
`GeminiQuotaExhaustedError`, or another raised exception. The driver
handles the `quotaRaise` presentation (app.py line 1744), and the type
keeps it so that handler is embedded faithfully — but
`process_single_product` can never produce it, because its own
`except Exception` (line 1642) catches the re-raised
`GeminiQuotaExhaustedError` and converts it into `(False, msg)`
(see the C3/C5/C10 theorems below). -/
inductive TaskRes where
  | ok | err | quotaRaise | exc
  deriving Repr, DecidableEq

/-- One completed task, with whether it incremented the shared
`created_counter` / `pushed_counter` before completing. -/
structure TaskOut where
  created : Bool
  pushed : Bool
  res : TaskRes
  deriving Repr, DecidableEq

/-- Observable driver actions, in program order. -/
inductive DriverEvent where
  | setStatus (s : JobStatus) (msg : Option JobMessage)
  | cancelPending (products : List Nat)
  | sleepUntilReset
  | resetAllQuotaFlags
  | submitRetry (products : List Nat)
  deriving Repr, DecidableEq

/-- Driver-loop accumulator: completion count, which futures are done, the
two shared counters, the quota flag, `failed_due_to_quota`, the stop flag,
and the futures cancelled on stop. -/
structure LoopSt where
  completedCount : Nat
  doneProducts : List Nat
  created : Nat
  pushed : Nat
  quotaExhausted : Bool
  failedDueToQuota : List Nat
  stopped : Bool
  cancelled : List Nat
  deriving Repr, DecidableEq

def initLoopSt : LoopSt :=
  { completedCount := 0, doneProducts := [], created := 0, pushed := 0
    quotaExhausted := false, failedDueToQuota := [], stopped := false
    cancelled := [] }

/-- The futures of `future_to_product` that are not yet done
(`fut != future and not fut.done()`; the current future is done, so the
condition is just non-membership in the completed set). -/
def pendingProducts (products done : List Nat) : List Nat :=
  products.filter (fun q => !done.contains q)

/-- The `for future in as_completed(future_to_product)` loop
(lines 1736-1775): count the completion, absorb the task's counter
increments, record a quota raise, then check for a user stop (cancel
pending futures and break) and for quota exhaustion (collect pending
futures into the retry set and break). -/
def runMainLoop (products : List Nat) (stopSignal : Nat → Bool) :
    List (Nat × TaskOut) → LoopSt → LoopSt
  | [], st => st
  | (p, out) :: rest, st =>
    let st1 : LoopSt := { st with
      completedCount := st.completedCount + 1
      doneProducts := st.doneProducts ++ [p]
      created := st.created + (if out.created then 1 else 0)
      pushed := st.pushed + (if out.pushed then 1 else 0) }
    let st2 : LoopSt :=
      if out.res = .quotaRaise then
        { st1 with quotaExhausted := true, failedDueToQuota := st1.failedDueToQuota ++ [p] }
      else st1
    if stopSignal st2.completedCount then
      { st2 with stopped := true, cancelled := pendingProducts products st2.doneProducts }
    else if st2.quotaExhausted then
      { st2 with failedDueToQuota := st2.failedDueToQuota ++ pendingProducts products st2.doneProducts }
    else
      runMainLoop products stopSignal rest st2

/-- Outcome of the post-recovery retry pass. -/
inductive RetryResult where
  | exhaustedAgain (msg : JobMessage)
  | uncaughtExc
  | finished (retryCreated retryPushed : Nat)
  deriving Repr, DecidableEq

/-- Parallel (PRO-mode) retry loop (lines 1834-1863): a second
`GeminiQuotaExhaustedError` ends the job with an error message; any other
exception is logged and the loop continues. -/
def runRetryLoop : List (Nat × TaskOut) → Nat → Nat → RetryResult
  | [], c, p => .finished c p
  | (_, out) :: rest, c, p =>
    let c1 := c + (if out.created then 1 else 0)
    let p1 := p + (if out.pushed then 1 else 0)
    match out.res with
    | .quotaRaise => .exhaustedAgain .quotaAgainSome
    | _ => runRetryLoop rest c1 p1

/-- Sequential (fast-mode) retry loop (lines 1815-1830): only
`GeminiQuotaExhaustedError` is caught (message names the count of products
still pending); any other raised exception escapes to the outer handler. -/
def runFastRetry (total : Nat) : List (Nat × TaskOut) → Nat → Nat → Nat → RetryResult
  | [], _, c, p => .finished c p
  | (_, out) :: rest, idx, c, p =>
    let idx1 := idx + 1
    let c1 := c + (if out.created then 1 else 0)
    let p1 := p + (if out.pushed then 1 else 0)
    match out.res with
    | .quotaRaise => .exhaustedAgain (.quotaAgainPendingCount (total - idx1))
    | .exc => .uncaughtExc
    | _ => runFastRetry total rest idx1 c1 p1

structure DriverResult where
  job : Job
  trace : List DriverEvent
  deriving Repr, DecidableEq

/-- `process_ai_job_async` (lines 1649-1930) for a loadable non-error
source job, over a given candidate product list. Empty list: mark
completed (lines 1698-1703). Otherwise run the pool loop; on
`quota_exhausted and failed_due_to_quota` enter the quota-recovery branch
(lines 1777-1880): status `waiting_for_quota_reset` with the retry-set
size, sleep past the reset boundary plus 60 s, `reset_quota_flags()`,
status `running`, resubmit exactly `failed_due_to_quota`; a second
exhaustion marks the job `error` and returns; otherwise the job is
unconditionally marked `completed`. Without quota exhaustion the final
status follows the success ratio (lines 1882-1918); the float test
`total_created >= total_products * 0.9` is rendered exactly as
`10 * created >= 9 * total` (for realistic counts the double rounding of
`n * 0.9` never crosses an integer, so the two tests agree). -/
def processAIJobAsync (products : List Nat) (stopSignal : Nat → Bool)
    (events : List (Nat × TaskOut)) (fast_mode : Bool)
    (retryEvents : List (Nat × TaskOut)) : DriverResult :=
  let trace : List DriverEvent := [.setStatus .running none]
  if products.isEmpty then
    { job := { status := .completed, push_status := .not_started
               ai_products_created := 0, products_pushed := 0, error_message := none }
      trace := trace ++ [.setStatus .completed none] }
  else
    let st := runMainLoop products stopSignal events initLoopSt
    let trace := trace ++ (if st.stopped then [.cancelPending st.cancelled] else [])
    if st.quotaExhausted ∧ st.failedDueToQuota ≠ [] then
      let n := st.failedDueToQuota.length
      let trace := trace ++
        [.setStatus .waiting_for_quota_reset (some (.quotaWaiting n)),
         .sleepUntilReset, .resetAllQuotaFlags,
         .setStatus .running (some (.resumedRetrying n)),
         .submitRetry st.failedDueToQuota]
      match (if fast_mode then runFastRetry n retryEvents 0 0 0
             else runRetryLoop retryEvents 0 0) with
      | .exhaustedAgain msg =>
        { job := { status := .error, push_status := .in_progress
                   ai_products_created := st.created, products_pushed := st.pushed
                   error_message := some msg }
          trace := trace ++ [.setStatus .error (some msg)] }
      | .uncaughtExc =>
        { job := { status := .error, push_status := .in_progress
                   ai_products_created := st.created, products_pushed := st.pushed
                   error_message := some .uncaught }
          trace := trace ++ [.setStatus .error (some .uncaught)] }
      | .finished rc rp =>
        { job := { status := .completed, push_status := .completed
                   ai_products_created := st.created + rc, products_pushed := st.pushed + rp
                   error_message := none }
          trace := trace ++ [.setStatus .completed none] }
    else
      let t := products.length
      if st.created = t then
        { job := { status := .completed, push_status := .completed
                   ai_products_created := st.created, products_pushed := st.pushed
                   error_message := none }
          trace := trace ++ [.setStatus .completed none] }
      else if 10 * st.created ≥ 9 * t then
        { job := { status := .completed, push_status := .completed
                   ai_products_created := st.created, products_pushed := st.pushed
                   error_message := some (.completedWithFailures (t - st.created)) }
          trace := trace ++ [.setStatus .completed (some (.completedWithFailures (t - st.created)))] }
      else
        { job := { status := .partialC, push_status := .partialC
                   ai_products_created := st.created, products_pushed := st.pushed
                   error_message := some (.partialCompletion (t - st.created)) }
          trace := trace ++ [.setStatus .partialC (some (.partialCompletion (t - st.created)))] }

/-- A task that created and pushed its product and returned `(True, None)`. -/
def okOut : TaskOut := { created := true, pushed := true, res := .ok }

/-- A task that returned `(False, msg)` without committing anything. -/
def failOut : TaskOut := { created := false, pushed := false, res := .err }

/-- C2: a stop request observed after 5 of 10 completions does cancel the
five not-yet-started tasks and preserves the five finished products, but
the final status is NOT `stopped`: after the loop breaks, the driver falls
into the success-ratio branch (lines 1882-1918), which overwrites the
`stopped` status the route had set with `partial` (5/10 = 50%). -/
theorem c2_stop_status_overwritten :
    (processAIJobAsync [1, 2, 3, 4, 5, 6, 7, 8, 9, 10] (fun n => decide (5 ≤ n))
        [(1, okOut), (2, okOut), (3, okOut), (4, okOut), (5, okOut)]
        false []).job.status = .partialC
    ∧ (processAIJobAsync [1, 2, 3, 4, 5, 6, 7, 8, 9, 10] (fun n => decide (5 ≤ n))
        [(1, okOut), (2, okOut), (3, okOut), (4, okOut), (5, okOut)]
        false []).job.status ≠ .stopped
    ∧ (processAIJobAsync [1, 2, 3, 4, 5, 6, 7, 8, 9, 10] (fun n => decide (5 ≤ n))
        [(1, okOut), (2, okOut), (3, okOut), (4, okOut), (5, okOut)]
        false []).job.ai_products_created = 5
    ∧ DriverEvent.cancelPending [6, 7, 8, 9, 10]
        ∈ (processAIJobAsync [1, 2, 3, 4, 5, 6, 7, 8, 9, 10] (fun n => decide (5 ≤ n))
        [(1, okOut), (2, okOut), (3, okOut), (4, okOut), (5, okOut)]
        false []).trace := by
  refine ⟨rfl, by decide, rfl, ?_⟩
  decide

/-! ### Driver-loop lemmas -/

/-- Cumulative effect of loop iterations whose events neither raise quota
exhaustion nor observe a stop: only the count, done-set and counters move. -/
def advanceClean (st : LoopSt) : List (Nat × TaskOut) → LoopSt
  | [] => st
  | (p, out) :: rest =>
    advanceClean { st with
      completedCount := st.completedCount + 1
      doneProducts := st.doneProducts ++ [p]
      created := st.created + (if out.created then 1 else 0)
      pushed := st.pushed + (if out.pushed then 1 else 0) } rest

lemma advanceClean_quotaExhausted (done : List (Nat × TaskOut)) :
    ∀ st : LoopSt, (advanceClean st done).quotaExhausted = st.quotaExhausted := by
  induction done with
  | nil => intro st; rfl
  | cons e rest ih => intro st; cases e; simpa [advanceClean] using ih _

lemma advanceClean_stopped (done : List (Nat × TaskOut)) :
    ∀ st : LoopSt, (advanceClean st done).stopped = st.stopped := by
  induction done with
  | nil => intro st; rfl
  | cons e rest ih => intro st; cases e; simpa [advanceClean] using ih _

lemma advanceClean_failed (done : List (Nat × TaskOut)) :
    ∀ st : LoopSt, (advanceClean st done).failedDueToQuota = st.failedDueToQuota := by
  induction done with
  | nil => intro st; rfl
  | cons e rest ih => intro st; cases e; simpa [advanceClean] using ih _

lemma advanceClean_cancelled (done : List (Nat × TaskOut)) :
    ∀ st : LoopSt, (advanceClean st done).cancelled = st.cancelled := by
  induction done with
  | nil => intro st; rfl
  | cons e rest ih => intro st; cases e; simpa [advanceClean] using ih _

lemma advanceClean_doneProducts (done : List (Nat × TaskOut)) :
    ∀ st : LoopSt, (advanceClean st done).doneProducts
      = st.doneProducts ++ done.map Prod.fst := by
  induction done with
  | nil => intro st; simp [advanceClean]
  | cons e rest ih =>
    intro st; cases e
    simp [advanceClean, ih]

lemma advanceClean_created (done : List (Nat × TaskOut)) :
    ∀ st : LoopSt, (advanceClean st done).created
      = st.created + done.countP (fun e => e.2.created) := by
  induction done with
  | nil => intro st; simp [advanceClean]
  | cons e rest ih =>
    intro st; cases e
    simp [advanceClean, ih, List.countP_cons]
    omega

lemma advanceClean_pushed (done : List (Nat × TaskOut)) :
    ∀ st : LoopSt, (advanceClean st done).pushed
      = st.pushed + done.countP (fun e => e.2.pushed) := by
  induction done with
  | nil => intro st; simp [advanceClean]
  | cons e rest ih =>
    intro st; cases e
    simp [advanceClean, ih, List.countP_cons]
    omega

/-- As long as no completion raises quota exhaustion and no stop is
observed, the loop just advances through its events. -/
lemma runMainLoop_clean (products : List Nat) (stopSignal : Nat → Bool)
    (hstop : ∀ n, stopSignal n = false)
    (done : List (Nat × TaskOut))
    (hclean : ∀ e ∈ done, e.2.res ≠ TaskRes.quotaRaise) :
    ∀ (rest : List (Nat × TaskOut)) (st : LoopSt), st.quotaExhausted = false →
      runMainLoop products stopSignal (done ++ rest) st
        = runMainLoop products stopSignal rest (advanceClean st done) := by
  induction done with
  | nil => intro rest st _; rfl
  | cons e rest' ih =>
    intro rest st hq
    obtain ⟨p, out⟩ := e
    have hres : out.res ≠ TaskRes.quotaRaise := hclean (p, out) (by simp)
    simp only [List.cons_append, runMainLoop, if_neg hres, hstop, Bool.false_eq_true,
      if_false, hq, advanceClean]
    exact ih (fun e he => hclean e (by simp [he])) rest _ (by simp [hq])

/-- A quota-free, stop-free event list is consumed completely. -/
lemma runMainLoop_clean_full (products : List Nat) (stopSignal : Nat → Bool)
    (hstop : ∀ n, stopSignal n = false)
    (events : List (Nat × TaskOut))
    (hclean : ∀ e ∈ events, e.2.res ≠ TaskRes.quotaRaise) :
    runMainLoop products stopSignal events initLoopSt
      = advanceClean initLoopSt events := by
  have h := runMainLoop_clean products stopSignal hstop events hclean [] initLoopSt rfl
  simpa using h

lemma isEmpty_false_of_ne_nil {α : Type} {l : List α} (h : l ≠ []) :
    l.isEmpty = false := by
  cases l with
  | nil => exact absurd rfl h
  | cons a t => rfl

/-- C4: on normal completion (no stop observed, no quota raise) of a
non-empty batch, the final status follows the success ratio
`created / total`: all created → `completed` with no error message;
at least 90% → `completed` with a warning message; otherwise → `partial`. -/
theorem c4_success_ratio_decides_status
    (products : List Nat) (stopSignal : Nat → Bool)
    (events retryEvents : List (Nat × TaskOut)) (fast_mode : Bool)
    (hne : products ≠ [])
    (hstop : ∀ n, stopSignal n = false)
    (hclean : ∀ e ∈ events, e.2.res ≠ TaskRes.quotaRaise) :
    (events.countP (fun e => e.2.created) = products.length →
      (processAIJobAsync products stopSignal events fast_mode retryEvents).job.status
          = .completed
      ∧ (processAIJobAsync products stopSignal events fast_mode retryEvents).job.error_message
          = none)
    ∧ (events.countP (fun e => e.2.created) ≠ products.length →
        10 * events.countP (fun e => e.2.created) ≥ 9 * products.length →
      (processAIJobAsync products stopSignal events fast_mode retryEvents).job.status
          = .completed
      ∧ (processAIJobAsync products stopSignal events fast_mode retryEvents).job.error_message
          = some (.completedWithFailures
              (products.length - events.countP (fun e => e.2.created))))
    ∧ (10 * events.countP (fun e => e.2.created) < 9 * products.length →
      (processAIJobAsync products stopSignal events fast_mode retryEvents).job.status
          = .partialC
      ∧ (processAIJobAsync products stopSignal events fast_mode retryEvents).job.error_message
          = some (.partialCompletion
              (products.length - events.countP (fun e => e.2.created)))) := by
  have hmain := runMainLoop_clean_full products stopSignal hstop events hclean
  have hEmpty := isEmpty_false_of_ne_nil hne
  have hq : (runMainLoop products stopSignal events initLoopSt).quotaExhausted = false := by
    rw [hmain, advanceClean_quotaExhausted]; rfl
  have hs : (runMainLoop products stopSignal events initLoopSt).stopped = false := by
    rw [hmain, advanceClean_stopped]; rfl
  have hc : (runMainLoop products stopSignal events initLoopSt).created
      = events.countP (fun e => e.2.created) := by
    rw [hmain, advanceClean_created]; simp [initLoopSt]
  refine ⟨fun h100 => ?_, fun hn100 h90 => ?_, fun hlt => ?_⟩
  · simp only [processAIJobAsync, hEmpty, Bool.false_eq_true, if_false,
      hq, hs, hc, false_and, ite_false, h100]
    simp
  · simp only [processAIJobAsync, hEmpty, Bool.false_eq_true, if_false,
      hq, hs, hc, false_and, ite_false]
    rw [if_neg hn100, if_pos h90]
    simp
  · have hn100 : ¬ events.countP (fun e => e.2.created) = products.length := by
      intro h; omega
    have hn90 : ¬ 10 * events.countP (fun e => e.2.created) ≥ 9 * products.length := by
      omega
    simp only [processAIJobAsync, hEmpty, Bool.false_eq_true, if_false,
      hq, hs, hc, false_and, ite_false]
    rw [if_neg hn100, if_neg hn90]
    simp

/-- C4 witness: a 10-product batch where 9 tasks create their product and
one soft-fails ends `completed` with a warning naming the 1 failed product
(the spec's 90% example). -/
theorem c4_witness :
    (processAIJobAsync [1, 2, 3, 4, 5, 6, 7, 8, 9, 10] (fun _ => false)
        [(1, okOut), (2, okOut), (3, okOut), (4, okOut), (5, okOut),
         (6, okOut), (7, okOut), (8, okOut), (9, okOut), (10, failOut)]
        false []).job.status = .completed
    ∧ (processAIJobAsync [1, 2, 3, 4, 5, 6, 7, 8, 9, 10] (fun _ => false)
        [(1, okOut), (2, okOut), (3, okOut), (4, okOut), (5, okOut),
         (6, okOut), (7, okOut), (8, okOut), (9, okOut), (10, failOut)]
        false []).job.error_message = some (.completedWithFailures 1) := by
  have h := (c4_success_ratio_decides_status [1, 2, 3, 4, 5, 6, 7, 8, 9, 10]
    (fun _ => false)
    [(1, okOut), (2, okOut), (3, okOut), (4, okOut), (5, okOut),
     (6, okOut), (7, okOut), (8, okOut), (9, okOut), (10, failOut)]
    [] false (by simp) (fun _ => rfl) (by decide)).2.1 (by decide) (by decide)
  exact ⟨h.1, h.2⟩

/-! ### Per-product task: `process_single_product` (src/app.py lines 1325-1646)

The task's database rows and external services are modelled explicitly:
the source product with its images and variants, the optional existing
`AIProduct` row (GeneratedItem), and oracles for the OpenAI enhancement,
the two Gemini edit-retry loops and the push outcome. The task records
the external capabilities it invokes in `calls`. -/

structure SourceImage where
  original_url : Option String
  deriving Repr, DecidableEq

structure SourceVariant where
  title : Option String
  option1 : Option String
  price : Option ℚ
  deriving Repr, DecidableEq

structure SourceProduct where
  id : Nat
  images : List SourceImage
  variants : List SourceVariant
  deriving Repr, DecidableEq

/-- The existing `AIProduct` row found by
`AIProduct.query.filter_by(source_product_id=...)`. -/
structure AIDupe where
  shopify_product_id : Option String
  deriving Repr, DecidableEq

/-- `pat` is a leading segment of `s` (character lists). -/
def isPrefixOfL : List Char → List Char → Bool
  | [], _ => true
  | _ :: _, [] => false
  | a :: as, b :: bs => a = b && isPrefixOfL as bs

/-- Python `pat in s` on character lists: `pat` occurs at some position. -/
def listContainsSub (pat : List Char) : List Char → Bool
  | [] => isPrefixOfL pat []
  | c :: rest => isPrefixOfL pat (c :: rest) || listContainsSub pat rest

/-- Python `s.lower()`, as a character list. -/
def lowerData (s : String) : List Char := s.data.map Char.toLower

/-- Python `pat in s.lower()`. -/
def containsSub (s pat : String) : Bool := listContainsSub pat.data (lowerData s)

/-- The placeholder keyword list of lines 1531-1534. -/
def placeholder_keywords : List String :=
  ["please select", "select option", "choose", "select size",
   "select color", "select variant"]

/-- Lines 1527-1537: a variant is a placeholder when any keyword occurs in
the lowercased title or option1. -/
def isPlaceholderVariant (v : SourceVariant) : Bool :=
  placeholder_keywords.any (fun k => containsSub (v.title.getD "") k)
  || placeholder_keywords.any (fun k => containsSub (v.option1.getD "") k)

/-- `float(variant.price) if variant.price else 0` (line 1545). -/
def variantPrice (v : SourceVariant) : ℚ := v.price.getD 0

/-- A variant that survives both filters of the copy loop (lines
1526-1554): not a placeholder and price above 0.01 (`mkRat 1 100` is the
exact value of the source's 0.01 threshold). -/
def isValidVariant (v : SourceVariant) : Bool :=
  !isPlaceholderVariant v && !(decide (variantPrice v ≤ mkRat 1 100))

/-- One Gemini edit attempt's outcome, by attempt index:
`failed` stands for an attempt that returned `None`
(single key exhausted, safety rejection, or other error). -/
inductive GemOut where
  | ok (dataUrl : String)
  | failed
  | raiseQuota
  deriving Repr, DecidableEq

/-- The OpenAI enhancement either returns an enhanced dict or raises
(caught by the task's generic handler). -/
inductive EnhOut where
  | ok
  | raiseExc
  deriving Repr, DecidableEq

/-- External capabilities the task can invoke. -/
inductive ExtCall where
  | openaiEnhance
  | geminiEdit (variation : String)
  | pushProduct
  deriving Repr, DecidableEq

/-- The task's error messages, by content. -/
inductive PSPErr where
  | noSourceImage
  | geminiFailedImage1
  | geminiFailedImage2
  | noValidVariants
  | pushFailed
  | generic
  deriving Repr, DecidableEq

/-- The task always returns a `(success, error)` pair: every exception —
including the `GeminiQuotaExhaustedError` re-raised at lines 1426/1464 —
is raised inside the task's outer `try` (line 1344) and caught by its
`except Exception` handler (line 1642), which returns `(False, msg)`. -/
inductive PSPRes where
  | returned (success : Bool) (err : Option PSPErr)
  deriving Repr, DecidableEq

structure PSPResult where
  res : PSPRes
  calls : List ExtCall
  createdInc : Bool
  pushedInc : Bool
  deriving Repr, DecidableEq

/-- Result of one `for attempt in range(max_retries)` edit loop
(lines 1402-1426 and 1440-1464). -/
inductive RetryOut where
  | got (dataUrl : String)
  | noneAfterRetries
  | raised
  deriving Repr, DecidableEq

/-- The retry loop around `gemini_service.edit_product_image`: up to the
given number of attempts; a `None` return retries, a quota raise
propagates. Returns the outcome and the number of attempts made. -/
def geminiAttempts (gem : Nat → GemOut) : Nat → Nat → RetryOut × Nat
  | 0, _ => (.noneAfterRetries, 0)
  | n + 1, idx =>
    match gem idx with
    | .ok url => (.got url, 1)
    | .raiseQuota => (.raised, 1)
    | .failed =>
      match geminiAttempts gem n (idx + 1) with
      | (r, k) => (r, k + 1)

/-- `process_single_product` (lines 1325-1646). Control flow: the
existing-dupe idempotence branch (lines 1348-1360); the OpenAI enhancement
(lines 1379-1383, generic exceptions land in the handler of line 1642);
the first-image check (lines 1391-1395); the two Gemini edit-retry loops
(lines 1397-1473) — a `GeminiQuotaExhaustedError` from an attempt is
re-raised there (lines 1426/1464) but that re-raise is still inside the
outer `try` of line 1344, so the `except Exception` of line 1642 catches
it, rolls back and returns `(False, "Error processing product ...")`,
like any other exception; the variant copy filter and the
zero-valid-variants rollback (lines 1526-1606); the commit incrementing
`created_counter` (lines 1619-1620); and the immediate push (lines
1624-1640). -/
def process_single_product (sp : SourceProduct) (existing_dupe : Option AIDupe)
    (enh : EnhOut) (gem1 gem2 : Nat → GemOut) (pushOk : Bool) : PSPResult :=
  match existing_dupe with
  | some d =>
    if d.shopify_product_id.isNone then
      { res := .returned true none, calls := [.pushProduct]
        createdInc := false, pushedInc := pushOk }
    else
      { res := .returned true none, calls := []
        createdInc := false, pushedInc := false }
  | none =>
    match enh with
    | .raiseExc =>
      { res := .returned false (some .generic), calls := [.openaiEnhance]
        createdInc := false, pushedInc := false }
    | .ok =>
      match sp.images.head? with
      | none =>
        { res := .returned false (some .noSourceImage), calls := [.openaiEnhance]
          createdInc := false, pushedInc := false }
      | some first_image =>
        if first_image.original_url.isNone then
          { res := .returned false (some .noSourceImage), calls := [.openaiEnhance]
            createdInc := false, pushedInc := false }
        else
          match geminiAttempts gem1 3 0 with
          | (r1, k1) =>
            let calls1 := ExtCall.openaiEnhance ::
              List.replicate k1 (ExtCall.geminiEdit "product_in_use")
            match r1 with
            | .raised =>
              { res := .returned false (some .generic), calls := calls1
                createdInc := false, pushedInc := false }
            | .noneAfterRetries =>
              { res := .returned false (some .geminiFailedImage1), calls := calls1
                createdInc := false, pushedInc := false }
            | .got _ =>
              match geminiAttempts gem2 3 0 with
              | (r2, k2) =>
                let calls2 := calls1 ++
                  List.replicate k2 (ExtCall.geminiEdit "installation")
                match r2 with
                | .raised =>
                  { res := .returned false (some .generic), calls := calls2
                    createdInc := false, pushedInc := false }
                | .noneAfterRetries =>
                  { res := .returned false (some .geminiFailedImage2), calls := calls2
                    createdInc := false, pushedInc := false }
                | .got _ =>
                  if (sp.variants.filter isValidVariant).length = 0 then
                    { res := .returned false (some .noValidVariants), calls := calls2
                      createdInc := false, pushedInc := false }
                  else
                    if pushOk then
                      { res := .returned true none
                        calls := calls2 ++ [.pushProduct]
                        createdInc := true, pushedInc := true }
                    else
                      { res := .returned false (some .pushFailed)
                        calls := calls2 ++ [.pushProduct]
                        createdInc := true, pushedInc := false }

/-- `not first_image or not first_image.original_url` (line 1392),
negated: the product has a usable source image. -/
def hasUsableImage (sp : SourceProduct) : Bool :=
  match sp.images.head? with
  | none => false
  | some img => img.original_url.isSome

/-- A source product with no image at all but one perfectly valid variant. -/
def imagelessProduct : SourceProduct :=
  { id := 7, images := []
    variants := [{ title := some "Default Title", option1 := none, price := some 10 }] }

/-- C6 counterexample: the claim is false as stated. A product with zero
usable source images that already has a GeneratedItem without a remote id
takes the idempotence branch first (lines 1348-1360), which invokes the
push capability and returns success — so neither "returns failure" nor
"push is never invoked" holds for every such product. -/
theorem c6_counterexample :
    hasUsableImage imagelessProduct = false
    ∧ ExtCall.pushProduct ∈ (process_single_product imagelessProduct
        (some { shopify_product_id := none }) .ok (fun _ => .failed)
        (fun _ => .failed) true).calls
    ∧ (process_single_product imagelessProduct
        (some { shopify_product_id := none }) .ok (fun _ => .failed)
        (fun _ => .failed) true).res = .returned true none := by
  refine ⟨rfl, ?_, rfl⟩
  simp [process_single_product]

/-- C6 amended: for every product with no pre-existing GeneratedItem that
has zero usable source images or zero valid (non-placeholder,
positive-price) variants, the per-product task returns failure and the
push capability is never invoked. -/
theorem c6_amended_no_push_for_invalid_products
    (sp : SourceProduct) (enh : EnhOut) (gem1 gem2 : Nat → GemOut) (pushOk : Bool)
    (hbad : hasUsableImage sp = false ∨ (sp.variants.filter isValidVariant).length = 0) :
    ExtCall.pushProduct ∉ (process_single_product sp none enh gem1 gem2 pushOk).calls
    ∧ (∃ err, (process_single_product sp none enh gem1 gem2 pushOk).res
        = .returned false err) := by
  cases enh with
  | raiseExc => simp [process_single_product]
  | ok =>
    cases himg : sp.images.head? with
    | none =>
      simp [process_single_product, himg]
    | some first_image =>
      cases hurl : first_image.original_url with
      | none =>
        simp [process_single_product, himg, hurl]
      | some url =>
        have husable : hasUsableImage sp = true := by
          simp [hasUsableImage, himg, hurl]
        have hvar : (sp.variants.filter isValidVariant).length = 0 := by
          rcases hbad with h | h
          · rw [husable] at h; exact absurd h (by simp)
          · exact h
        rcases h1 : geminiAttempts gem1 3 0 with ⟨r1, k1⟩
        cases r1 with
        | raised =>
          simp [process_single_product, himg, hurl, h1]
        | noneAfterRetries =>
          simp [process_single_product, himg, hurl, h1]
        | got u1 =>
          rcases h2 : geminiAttempts gem2 3 0 with ⟨r2, k2⟩
          cases r2 with
          | raised =>
            simp [process_single_product, himg, hurl, h1, h2]
          | noneAfterRetries =>
            simp [process_single_product, himg, hurl, h1, h2]
          | got u2 =>
            simp [process_single_product, himg, hurl, h1, h2, hvar]

/-- A product whose two variants are a placeholder and a zero-priced one
(zero valid variants) but with a usable image. -/
def zeroVariantProduct : SourceProduct :=
  { id := 9
    images := [{ original_url := some "http:whatever" }]
    variants :=
      [{ title := some "Please Select an option", option1 := none, price := some 10 },
       { title := some "Small", option1 := some "Small", price := some 0 }] }

/-- C6 amended witness: the zero-valid-variant product with no existing
GeneratedItem never reaches the push and its task returns failure. -/
theorem c6_amended_witness :
    ExtCall.pushProduct ∉ (process_single_product zeroVariantProduct none .ok
        (fun _ => .ok "img1") (fun _ => .ok "img2") true).calls
    ∧ (∃ err, (process_single_product zeroVariantProduct none .ok
        (fun _ => .ok "img1") (fun _ => .ok "img2") true).res
        = .returned false err) := by
  exact c6_amended_no_push_for_invalid_products zeroVariantProduct .ok
    (fun _ => .ok "img1") (fun _ => .ok "img2") true (Or.inr (by decide))

/-- C7: when a GeneratedItem already exists for the source product, the
task performs no regeneration (no enhancement call, no image-edit call);
with a remote id present it short-circuits with success and makes no call
at all; without a remote id it attempts exactly the push and returns
success. -/
theorem c7_existing_item_skips_regeneration
    (sp : SourceProduct) (d : AIDupe) (enh : EnhOut) (gem1 gem2 : Nat → GemOut)
    (pushOk : Bool) :
    ExtCall.openaiEnhance ∉ (process_single_product sp (some d) enh gem1 gem2 pushOk).calls
    ∧ (∀ v, ExtCall.geminiEdit v ∉ (process_single_product sp (some d) enh gem1 gem2 pushOk).calls)
    ∧ (d.shopify_product_id ≠ none →
        (process_single_product sp (some d) enh gem1 gem2 pushOk).calls = []
        ∧ (process_single_product sp (some d) enh gem1 gem2 pushOk).res = .returned true none)
    ∧ (d.shopify_product_id = none →
        (process_single_product sp (some d) enh gem1 gem2 pushOk).calls = [.pushProduct]
        ∧ (process_single_product sp (some d) enh gem1 gem2 pushOk).res = .returned true none) := by
  cases hid : d.shopify_product_id with
  | none => simp [process_single_product, hid]
  | some pid => simp [process_single_product, hid]

/-- C7 witness: an existing GeneratedItem without a remote id leads to a
push-only task returning success. -/
theorem c7_witness :
    ExtCall.openaiEnhance ∉ (process_single_product imagelessProduct
        (some { shopify_product_id := none }) .ok (fun _ => .failed)
        (fun _ => .failed) true).calls
    ∧ (process_single_product imagelessProduct
        (some { shopify_product_id := none }) .ok (fun _ => .failed)
        (fun _ => .failed) true).calls = [.pushProduct] := by
  have h := c7_existing_item_skips_regeneration imagelessProduct
    { shopify_product_id := none } .ok (fun _ => .failed) (fun _ => .failed) true
  exact ⟨h.1, (h.2.2.2 rfl).1⟩

/-! ### Unreachability of the quota-recovery branch

`process_single_product` always returns a `(success, error)` pair — its
`except Exception` (app.py line 1642) also catches the re-raised
`GeminiQuotaExhaustedError` (lines 1426/1464) — so the driver's
`except GeminiQuotaExhaustedError` (line 1744) can never fire: the
completion events the pool presents to `process_ai_job_async` never carry
`TaskRes.quotaRaise`, and under that condition the whole quota-recovery
branch (lines 1777-1880) is dead code. -/

/-- With no quota-raise event the loop's quota flag stays down, whatever
the stop signal does. -/
lemma runMainLoop_quotaExhausted_false (products : List Nat) (stopSignal : Nat → Bool) :
    ∀ (events : List (Nat × TaskOut)) (st : LoopSt),
      (∀ e ∈ events, e.2.res ≠ TaskRes.quotaRaise) → st.quotaExhausted = false →
      (runMainLoop products stopSignal events st).quotaExhausted = false := by
  intro events
  induction events with
  | nil => intro st _ hq; exact hq
  | cons e rest ih =>
    intro st hclean hq
    obtain ⟨p, out⟩ := e
    have hres : out.res ≠ TaskRes.quotaRaise := hclean (p, out) (by simp)
    simp only [runMainLoop, if_neg hres]
    split
    · simpa using hq
    · split
      · rename_i h2
        simp [hq] at h2
      · exact ih _ (fun e he => hclean e (by simp [he])) (by simp [hq])

/-- Without a quota-raise completion event, every trace event of the
driver is the initial `running` marker, a stop cancellation, or one final
ratio-branch status — never a recovery event. -/
lemma no_recovery_event (products : List Nat) (stopSignal : Nat → Bool)
    (events retryEvents : List (Nat × TaskOut)) (fast_mode : Bool)
    (hclean : ∀ e ∈ events, e.2.res ≠ TaskRes.quotaRaise) (ev : DriverEvent)
    (hev : ev ∈ (processAIJobAsync products stopSignal events fast_mode retryEvents).trace) :
    ev = DriverEvent.setStatus .running none
    ∨ (∃ c, ev = DriverEvent.cancelPending c)
    ∨ (∃ m, ev = DriverEvent.setStatus .completed m)
    ∨ (∃ m, ev = DriverEvent.setStatus .partialC m) := by
  by_cases hempty : products.isEmpty = true
  · simp [processAIJobAsync, hempty] at hev
    rcases hev with rfl | rfl
    · exact Or.inl rfl
    · exact Or.inr (Or.inr (Or.inl ⟨_, rfl⟩))
  · have hE : products.isEmpty = false := by
      cases h : products.isEmpty with
      | false => rfl
      | true => exact absurd h hempty
    have hqf := runMainLoop_quotaExhausted_false products stopSignal events initLoopSt hclean rfl
    have hcond : ¬((runMainLoop products stopSignal events initLoopSt).quotaExhausted = true
        ∧ (runMainLoop products stopSignal events initLoopSt).failedDueToQuota ≠ []) := by
      rw [hqf]; simp
    simp only [processAIJobAsync, hE, Bool.false_eq_true, if_false, if_neg hcond] at hev
    split at hev
    · split at hev
      · simp at hev
        rcases hev with rfl | rfl | rfl
        · exact Or.inl rfl
        · exact Or.inr (Or.inl ⟨_, rfl⟩)
        · exact Or.inr (Or.inr (Or.inl ⟨_, rfl⟩))
      · simp at hev
        rcases hev with rfl | rfl
        · exact Or.inl rfl
        · exact Or.inr (Or.inr (Or.inl ⟨_, rfl⟩))
    · split at hev
      · split at hev
        · simp at hev
          rcases hev with rfl | rfl | rfl
          · exact Or.inl rfl
          · exact Or.inr (Or.inl ⟨_, rfl⟩)
          · exact Or.inr (Or.inr (Or.inl ⟨_, rfl⟩))
        · simp at hev
          rcases hev with rfl | rfl
          · exact Or.inl rfl
          · exact Or.inr (Or.inr (Or.inl ⟨_, rfl⟩))
      · split at hev
        · simp at hev
          rcases hev with rfl | rfl | rfl
          · exact Or.inl rfl
          · exact Or.inr (Or.inl ⟨_, rfl⟩)
          · exact Or.inr (Or.inr (Or.inr ⟨_, rfl⟩))
        · simp at hev
          rcases hev with rfl | rfl
          · exact Or.inl rfl
          · exact Or.inr (Or.inr (Or.inr ⟨_, rfl⟩))

/-- A source product with a usable image and one valid variant. -/
def viableProduct : SourceProduct :=
  { id := 4, images := [{ original_url := some "http:img" }]
    variants := [{ title := some "Default Title", option1 := none, price := some 20 }] }

/-- C3 (code bug): the terminal exhaustion signal never reaches the
driver, so the recovery the claim describes cannot happen. First
conjunct: at the failing input — a viable product whose first image edit
raises `GeminiQuotaExhaustedError` (all keys exhausted) — the task
returns ordinary failure `(False, msg)` instead of raising, because its
`except Exception` (line 1642) swallows the re-raise of line 1426,
despite that line's comment `Re-raise to be caught by
process_ai_job_async`. Second conjunct: for completion events without a
quota raise — the only events the task can produce — the driver never
sets `waiting_for_quota_reset` and never performs the quota-reset sleep:
the recovery branch (lines 1777-1880) is unreachable. -/
theorem c3_exhaustion_signal_never_reaches_driver :
    (process_single_product viableProduct none .ok (fun _ => .raiseQuota)
        (fun _ => .raiseQuota) true).res = .returned false (some .generic)
    ∧ ∀ (products : List Nat) (stopSignal : Nat → Bool)
        (events retryEvents : List (Nat × TaskOut)) (fast_mode : Bool),
        (∀ e ∈ events, e.2.res ≠ TaskRes.quotaRaise) →
        (∀ m, DriverEvent.setStatus .waiting_for_quota_reset m
            ∉ (processAIJobAsync products stopSignal events fast_mode retryEvents).trace)
        ∧ DriverEvent.sleepUntilReset
            ∉ (processAIJobAsync products stopSignal events fast_mode retryEvents).trace := by
  refine ⟨rfl, ?_⟩
  intro products stopSignal events retryEvents fast_mode hclean
  constructor
  · intro m hmem
    rcases no_recovery_event products stopSignal events retryEvents fast_mode hclean
      _ hmem with h | ⟨c, h⟩ | ⟨m', h⟩ | ⟨m', h⟩ <;> simp at h
  · intro hmem
    rcases no_recovery_event products stopSignal events retryEvents fast_mode hclean
      _ hmem with h | ⟨c, h⟩ | ⟨m', h⟩ | ⟨m', h⟩ <;> simp at h

/-- C3 witness: a concrete two-product run with soft failures never sets
`waiting_for_quota_reset` and never sleeps for a quota reset. -/
theorem c3_witness :
    DriverEvent.sleepUntilReset
        ∉ (processAIJobAsync [1, 2] (fun _ => false)
            [(1, failOut), (2, failOut)] false []).trace
    ∧ DriverEvent.setStatus .waiting_for_quota_reset (some (.quotaWaiting 2))
        ∉ (processAIJobAsync [1, 2] (fun _ => false)
            [(1, failOut), (2, failOut)] false []).trace := by
  have h := c3_exhaustion_signal_never_reaches_driver.2 [1, 2] (fun _ => false)
    [(1, failOut), (2, failOut)] [] false (by decide)
  exact ⟨h.2, h.1 (some (.quotaWaiting 2))⟩

/-- C5 (code bug): both halves of the claim's scenario are impossible.
First conjunct: at the failing input — the second image edit hits total
exhaustion — the task again returns ordinary failure instead of raising
(the re-raise of line 1464 is swallowed at line 1642). Second conjunct:
with the events the task can produce, the driver never submits a retry
batch and never marks the job `error`, so the second-exhaustion handlers
(lines 1823-1830 and 1855-1861) are dead code. -/
theorem c5_retry_branch_unreachable :
    (process_single_product viableProduct none .ok (fun _ => .ok "img1")
        (fun _ => .raiseQuota) true).res = .returned false (some .generic)
    ∧ ∀ (products : List Nat) (stopSignal : Nat → Bool)
        (events retryEvents : List (Nat × TaskOut)) (fast_mode : Bool),
        (∀ e ∈ events, e.2.res ≠ TaskRes.quotaRaise) →
        (∀ R, DriverEvent.submitRetry R
            ∉ (processAIJobAsync products stopSignal events fast_mode retryEvents).trace)
        ∧ (∀ m, DriverEvent.setStatus .error m
            ∉ (processAIJobAsync products stopSignal events fast_mode retryEvents).trace) := by
  refine ⟨rfl, ?_⟩
  intro products stopSignal events retryEvents fast_mode hclean
  constructor
  · intro R hmem
    rcases no_recovery_event products stopSignal events retryEvents fast_mode hclean
      _ hmem with h | ⟨c, h⟩ | ⟨m', h⟩ | ⟨m', h⟩ <;> simp at h
  · intro m hmem
    rcases no_recovery_event products stopSignal events retryEvents fast_mode hclean
      _ hmem with h | ⟨c, h⟩ | ⟨m', h⟩ | ⟨m', h⟩ <;> simp at h

/-- C5 witness: a concrete three-product run never submits a retry batch
and never reaches the `error` marking of the second-exhaustion handler. -/
theorem c5_witness :
    DriverEvent.submitRetry [1, 2]
        ∉ (processAIJobAsync [1, 2, 3] (fun _ => false)
            [(1, okOut), (2, failOut), (3, failOut)] false []).trace
    ∧ DriverEvent.setStatus .error (some .quotaAgainSome)
        ∉ (processAIJobAsync [1, 2, 3] (fun _ => false)
            [(1, okOut), (2, failOut), (3, failOut)] false []).trace := by
  have h := c5_retry_branch_unreachable.2 [1, 2, 3] (fun _ => false)
    [(1, okOut), (2, failOut), (3, failOut)] [] false (by decide)
  exact ⟨h.1 [1, 2], h.2 (some .quotaAgainSome)⟩

/-- C10 (code bug): the post-recovery unconditional-completed write
(lines 1872-1880) never executes. First conjuncts: in a concrete run
where every task fails — the situation the claim says would still end
`completed` after a recovery — the success-ratio rule governs instead
(`partial`, 0/3, with its message). Last conjunct: with the events the
task can produce, the driver never calls the rotator's
`reset_quota_flags`, so the retry pass it belongs to never runs. -/
theorem c10_recovery_completion_unreachable :
    (processAIJobAsync [1, 2, 3] (fun _ => false)
        [(1, failOut), (2, failOut), (3, failOut)] false []).job.status = .partialC
    ∧ (processAIJobAsync [1, 2, 3] (fun _ => false)
        [(1, failOut), (2, failOut), (3, failOut)] false []).job.error_message
        = some (.partialCompletion 3)
    ∧ ∀ (products : List Nat) (stopSignal : Nat → Bool)
        (events retryEvents : List (Nat × TaskOut)) (fast_mode : Bool),
        (∀ e ∈ events, e.2.res ≠ TaskRes.quotaRaise) →
        DriverEvent.resetAllQuotaFlags
            ∉ (processAIJobAsync products stopSignal events fast_mode retryEvents).trace := by
  refine ⟨rfl, rfl, ?_⟩
  intro products stopSignal events retryEvents fast_mode hclean hmem
  rcases no_recovery_event products stopSignal events retryEvents fast_mode hclean
    _ hmem with h | ⟨c, h⟩ | ⟨m', h⟩ | ⟨m', h⟩ <;> simp at h

/-- C10 witness: a concrete two-product run never calls
`reset_quota_flags`. -/
theorem c10_witness :
    DriverEvent.resetAllQuotaFlags
        ∉ (processAIJobAsync [1, 2] (fun _ => false)
            [(1, okOut), (2, okOut)] false []).trace := by
  exact c10_recovery_completion_unreachable.2.2 [1, 2] (fun _ => false)
    [(1, okOut), (2, okOut)] [] false (by decide)

/-! ### Push: `push_ai_product_to_shopify` (src/app.py lines 2110-2227) and
`ShopifyService.find_products_by_title` (src/services/shopify_service.py
lines 250-280) -/

/-- A product dict returned by the Shopify products listing. -/
structure RemoteProduct where
  id : Option Nat
  title : String
  deriving Repr, DecidableEq

structure CreatedVariant where
  inventory_item_id : Option Nat
  deriving Repr, DecidableEq

/-- The product dict returned by a successful `create_product`. -/
structure CreatedProduct where
  id : Nat
  variants : List CreatedVariant
  deriving Repr, DecidableEq

/-- The `AIProduct` row as the push function reads and writes it. -/
structure AIProductRec where
  title : String
  status : String
  shopify_product_id : Option String
  images : List String
  deriving Repr, DecidableEq

/-- `find_products_by_title` (shopify_service.py lines 250-280): on a
successful response, keep the products whose title matches exactly,
case-insensitively; on an error response or exception, the empty list. -/
def find_products_by_title (title : String) (raw : Option (List RemoteProduct)) :
    List RemoteProduct :=
  match raw with
  | none => []
  | some products =>
    products.filter (fun p => decide (lowerData p.title = lowerData title))

/-- Rate-gated Shopify calls issued by the push. -/
inductive PushCall where
  | findByTitle (title : String)
  | createProduct
  | addImage (url : String)
  | disableInventory (item : Nat)
  | deleteProduct (pid : Nat)
  deriving Repr, DecidableEq

/-- External responses the push depends on. -/
structure PushEnv where
  findRaw : Option (List RemoteProduct)
  createResult : Option CreatedProduct
  deriving Repr, DecidableEq

structure PushOutcome where
  result : Bool
  finalProduct : Option AIProductRec
  calls : List PushCall
  deriving Repr, DecidableEq

/-- `push_ai_product_to_shopify` (lines 2110-2227): missing row → False;
already-pushed row → True without any call; then the duplicate check by
title (a truthy id on the first hit records it, status `pushed`, and
returns True without creating); then create (None → False), the
no-images guard that deletes the just-created remote product, the image
uploads, the inventory-disable calls, and the final status update. -/
def push_ai_product_to_shopify (ai_product : Option AIProductRec)
    (env : PushEnv) : PushOutcome :=
  match ai_product with
  | none => { result := false, finalProduct := none, calls := [] }
  | some ap =>
    if ap.shopify_product_id.isSome then
      { result := true, finalProduct := some ap, calls := [] }
    else
      match find_products_by_title ap.title env.findRaw with
      | r :: _ =>
        match r.id with
        | some rid =>
          if rid = 0 then
            { result := true, finalProduct := some ap
              calls := [.findByTitle ap.title] }
          else
            { result := true
              finalProduct := some { ap with
                status := "pushed", shopify_product_id := some (toString rid) }
              calls := [.findByTitle ap.title] }
        | none =>
          { result := true, finalProduct := some ap
            calls := [.findByTitle ap.title] }
      | [] =>
        match env.createResult with
        | none =>
          { result := false, finalProduct := some ap
            calls := [.findByTitle ap.title, .createProduct] }
        | some created =>
          if ap.images.isEmpty then
            { result := false, finalProduct := some ap
              calls := [.findByTitle ap.title, .createProduct,
                        .deleteProduct created.id] }
          else
            { result := true
              finalProduct := some { ap with
                status := "pushed", shopify_product_id := some (toString created.id) }
              calls := [.findByTitle ap.title, .createProduct]
                ++ ap.images.map PushCall.addImage
                ++ (created.variants.filterMap (fun v => v.inventory_item_id)).map
                    PushCall.disableInventory }

/-- C8: when the duplicate lookup by title finds an existing remote
product (with a real id), the push succeeds without any create call and
records the existing remote id on the GeneratedItem with status
`pushed`. -/
theorem c8_duplicate_title_hit_is_success
    (ap : AIProductRec) (env : PushEnv) (r : RemoteProduct)
    (rest : List RemoteProduct) (rid : Nat)
    (hspid : ap.shopify_product_id = none)
    (hfind : find_products_by_title ap.title env.findRaw = r :: rest)
    (hid : r.id = some rid) (hnz : rid ≠ 0) :
    (push_ai_product_to_shopify (some ap) env).result = true
    ∧ PushCall.createProduct ∉ (push_ai_product_to_shopify (some ap) env).calls
    ∧ (push_ai_product_to_shopify (some ap) env).finalProduct
        = some { ap with status := "pushed", shopify_product_id := some (toString rid) } := by
  simp only [push_ai_product_to_shopify, hspid, Option.isSome_none,
    Bool.false_eq_true, if_false, hfind, hid, if_neg hnz]
  simp

/-- C8 witness: a duplicate hit with remote id 42 is recorded as a
successful push of that id. -/
theorem c8_witness :
    (push_ai_product_to_shopify
        (some { title := "Safety Bollard", status := "pending",
                shopify_product_id := none, images := ["img"] })
        { findRaw := some [{ id := some 42, title := "SAFETY bollard" }],
          createResult := none }).result = true
    ∧ PushCall.createProduct ∉ (push_ai_product_to_shopify
        (some { title := "Safety Bollard", status := "pending",
                shopify_product_id := none, images := ["img"] })
        { findRaw := some [{ id := some 42, title := "SAFETY bollard" }],
          createResult := none }).calls
    ∧ (push_ai_product_to_shopify
        (some { title := "Safety Bollard", status := "pending",
                shopify_product_id := none, images := ["img"] })
        { findRaw := some [{ id := some 42, title := "SAFETY bollard" }],
          createResult := none }).finalProduct
        = some { title := "Safety Bollard", status := "pushed",
                 shopify_product_id := some "42", images := ["img"] } := by
  exact c8_duplicate_title_hit_is_success
    { title := "Safety Bollard", status := "pending",
      shopify_product_id := none, images := ["img"] }
    { findRaw := some [{ id := some 42, title := "SAFETY bollard" }],
      createResult := none }
    { id := some 42, title := "SAFETY bollard" } [] 42
    rfl (by decide) rfl (by decide)

/-! ### Per-store rate-limiter registry: `get_shopify_rate_limiter`
(src/app.py lines 149-161)

`shopify_rate_limiters` is a dict from shop URL to a capacity-1 semaphore,
guarded by a lock; gate objects are modelled by an allocation id plus the
semaphore capacity, the registry by the association table plus the next
fresh id. All accesses run under `shopify_rate_limiter_lock`, so the
lookup sequence is a serial list. -/

structure StoreGate where
  gid : Nat
  capacity : Nat
  deriving Repr, DecidableEq

structure LimiterRegistry where
  table : List (String × StoreGate)
  nextId : Nat
  deriving Repr, DecidableEq

/-- The module-level `shopify_rate_limiters = {}`. -/
def emptyRegistry : LimiterRegistry := { table := [], nextId := 0 }

/-- `get_shopify_rate_limiter` (lines 155-161): under the lock, create a
`threading.Semaphore(1)` for the URL on first use, then return the URL's
gate. -/
def get_shopify_rate_limiter (reg : LimiterRegistry) (shop_url : String) :
    StoreGate × LimiterRegistry :=
  match reg.table.lookup shop_url with
  | some g => (g, reg)
  | none =>
    let g : StoreGate := { gid := reg.nextId, capacity := 1 }
    (g, { table := reg.table ++ [(shop_url, g)], nextId := reg.nextId + 1 })

/-- The gate returned for `u`. -/
def gateFor (reg : LimiterRegistry) (u : String) : StoreGate :=
  (get_shopify_rate_limiter reg u).1

/-- The registry after the lookup of `u`. -/
def afterLookup (reg : LimiterRegistry) (u : String) : LimiterRegistry :=
  (get_shopify_rate_limiter reg u).2

/-- A serial sequence of registry lookups. -/
def runLimiterLookups (reg : LimiterRegistry) : List String → LimiterRegistry
  | [] => reg
  | u :: rest => runLimiterLookups (afterLookup reg u) rest

/-- Registry invariant: allocated ids are below the allocation counter and
pairwise distinct, keys are distinct, and every gate has capacity 1. -/
structure RegistryWF (reg : LimiterRegistry) : Prop where
  gidBound : ∀ e ∈ reg.table, e.2.gid < reg.nextId
  capOne : ∀ e ∈ reg.table, e.2.capacity = 1
  keysNodup : (reg.table.map Prod.fst).Nodup
  gidsNodup : (reg.table.map (fun e => e.2.gid)).Nodup

lemma lookup_append_some {β : Type} {l : List (String × β)} (l' : List (String × β))
    {k : String} {b : β} (h : l.lookup k = some b) : (l ++ l').lookup k = some b := by
  induction l with
  | nil => simp [List.lookup] at h
  | cons e t ih =>
    obtain ⟨k1, v1⟩ := e
    by_cases hk : k = k1
    · subst hk
      rw [List.lookup_cons_self] at h
      rw [List.cons_append, List.lookup_cons_self]
      exact h
    · simp only [List.lookup_cons, beq_false_of_ne hk] at h
      simp only [List.cons_append, List.lookup_cons, beq_false_of_ne hk]
      exact ih h

lemma lookup_append_none {β : Type} {l : List (String × β)} (l' : List (String × β))
    {k : String} (h : l.lookup k = none) : (l ++ l').lookup k = l'.lookup k := by
  induction l with
  | nil => simp
  | cons e t ih =>
    obtain ⟨k1, v1⟩ := e
    by_cases hk : k = k1
    · subst hk
      rw [List.lookup_cons_self] at h
      cases h
    · simp only [List.lookup_cons, beq_false_of_ne hk] at h
      simp only [List.cons_append, List.lookup_cons, beq_false_of_ne hk]
      exact ih h

lemma lookup_mem {β : Type} {l : List (String × β)} {k : String} {b : β}
    (h : l.lookup k = some b) : (k, b) ∈ l := by
  induction l with
  | nil => simp [List.lookup] at h
  | cons e t ih =>
    obtain ⟨k1, v1⟩ := e
    by_cases hk : k = k1
    · subst hk
      rw [List.lookup_cons_self] at h
      injection h with h1
      subst h1
      exact List.mem_cons_self _ _
    · simp only [List.lookup_cons, beq_false_of_ne hk] at h
      exact List.mem_cons_of_mem _ (ih h)

lemma not_mem_of_lookup_eq_none {β : Type} {l : List (String × β)} {k : String}
    (h : l.lookup k = none) : k ∉ l.map Prod.fst := by
  rw [List.lookup_eq_none_iff] at h
  intro hmem
  obtain ⟨p, hp, hfst⟩ := List.mem_map.mp hmem
  have h2 := h p hp
  simp only [bne_iff_ne, ne_eq] at h2
  exact h2 hfst.symm

lemma gateFor_of_lookup {reg : LimiterRegistry} {u : String} {g : StoreGate}
    (h : reg.table.lookup u = some g) : gateFor reg u = g := by
  unfold gateFor get_shopify_rate_limiter
  simp [h]

lemma gateFor_of_lookup_none {reg : LimiterRegistry} {u : String}
    (h : reg.table.lookup u = none) :
    gateFor reg u = { gid := reg.nextId, capacity := 1 } := by
  unfold gateFor get_shopify_rate_limiter
  simp [h]

/-- After looking `u` up, the registry maps `u` to the returned gate. -/
lemma afterLookup_lookup (reg : LimiterRegistry) (u : String) :
    (afterLookup reg u).table.lookup u = some (gateFor reg u) := by
  unfold afterLookup gateFor get_shopify_rate_limiter
  cases h : reg.table.lookup u with
  | some g => simp [h]
  | none =>
    simp only [h]
    rw [lookup_append_none _ h]
    exact List.lookup_cons_self

/-- An existing registry entry survives any later lookup unchanged. -/
lemma lookup_stable (reg : LimiterRegistry) (u v : String) (g : StoreGate)
    (h : reg.table.lookup u = some g) :
    (afterLookup reg v).table.lookup u = some g := by
  unfold afterLookup get_shopify_rate_limiter
  cases hv : reg.table.lookup v with
  | some gv => simpa [hv] using h
  | none =>
    simp only [hv]
    exact lookup_append_some _ h

lemma lookup_stable_run (mid : List String) :
    ∀ (reg : LimiterRegistry) (u : String) (g : StoreGate),
      reg.table.lookup u = some g →
      (runLimiterLookups reg mid).table.lookup u = some g := by
  induction mid with
  | nil => intro reg u g h; exact h
  | cons v rest ih =>
    intro reg u g h
    exact ih _ u g (lookup_stable reg u v g h)

/-- Registry entries are never removed by a lookup. -/
lemma table_sub_afterLookup (reg : LimiterRegistry) (v : String)
    {e : String × StoreGate} (h : e ∈ reg.table) : e ∈ (afterLookup reg v).table := by
  unfold afterLookup get_shopify_rate_limiter
  cases hv : reg.table.lookup v with
  | some gv => simpa [hv] using h
  | none => simp only [hv]; exact List.mem_append_left _ h

lemma table_sub_run (mid : List String) :
    ∀ (reg : LimiterRegistry) (e : String × StoreGate),
      e ∈ reg.table → e ∈ (runLimiterLookups reg mid).table := by
  induction mid with
  | nil => intro reg e h; exact h
  | cons v rest ih =>
    intro reg e h
    exact ih _ e (table_sub_afterLookup reg v h)

lemma wf_empty : RegistryWF emptyRegistry := by
  constructor <;> simp [emptyRegistry]

lemma wf_afterLookup (reg : LimiterRegistry) (u : String) (h : RegistryWF reg) :
    RegistryWF (afterLookup reg u) := by
  unfold afterLookup get_shopify_rate_limiter
  cases hu : reg.table.lookup u with
  | some g => simpa [hu] using h
  | none =>
    simp only [hu]
    have hnot := not_mem_of_lookup_eq_none hu
    constructor
    · intro e he
      rcases List.mem_append.mp he with he | he
      · exact Nat.lt_succ_of_lt (h.gidBound e he)
      · simp at he; subst he; simp
    · intro e he
      rcases List.mem_append.mp he with he | he
      · exact h.capOne e he
      · simp at he; subst he; rfl
    · rw [List.map_append, List.nodup_append]
      refine ⟨h.keysNodup, by simp, ?_⟩
      intro a ha hb
      simp at hb
      subst hb
      exact hnot ha
    · rw [List.map_append, List.nodup_append]
      refine ⟨h.gidsNodup, by simp, ?_⟩
      intro a ha hb
      simp at hb
      subst hb
      simp only [List.mem_map] at ha
      obtain ⟨e, he, hgid⟩ := ha
      exact absurd hgid (Nat.ne_of_lt (h.gidBound e he))

lemma wf_run (mid : List String) :
    ∀ reg : LimiterRegistry, RegistryWF reg → RegistryWF (runLimiterLookups reg mid) := by
  induction mid with
  | nil => intro reg h; exact h
  | cons v rest ih => intro reg h; exact ih _ (wf_afterLookup reg v h)

/-- A single lookup registers exactly its own URL (on first use). -/
lemma registered_iff_afterLookup (reg : LimiterRegistry) (v u : String) :
    ((afterLookup reg v).table.lookup u).isSome
      ↔ (reg.table.lookup u).isSome ∨ u = v := by
  unfold afterLookup get_shopify_rate_limiter
  cases hv : reg.table.lookup v with
  | some gv =>
    simp only [hv]
    constructor
    · intro h; exact Or.inl h
    · rintro (h | rfl)
      · exact h
      · rw [hv]; rfl
  | none =>
    simp only [hv]
    cases hu : reg.table.lookup u with
    | some gu =>
      rw [lookup_append_some _ hu]
      simp
    | none =>
      rw [lookup_append_none _ hu]
      by_cases huv : u = v
      · subst huv
        rw [List.lookup_cons_self]
        simp
      · simp only [List.lookup_cons, beq_false_of_ne huv, hu]
        simp [List.lookup, huv]

lemma registered_iff_run (pre : List String) :
    ∀ (reg : LimiterRegistry) (u : String),
      ((runLimiterLookups reg pre).table.lookup u).isSome
        ↔ (reg.table.lookup u).isSome ∨ u ∈ pre := by
  induction pre with
  | nil => intro reg u; simp [runLimiterLookups]
  | cons v rest ih =>
    intro reg u
    show ((runLimiterLookups (afterLookup reg v) rest).table.lookup u).isSome ↔ _
    rw [ih, registered_iff_afterLookup]
    constructor
    · rintro ((h | h) | h)
      · exact Or.inl h
      · exact Or.inr (by simp [h])
      · exact Or.inr (by simp [h])
    · rintro (h | h)
      · exact Or.inl (Or.inl h)
      · rcases List.mem_cons.mp h with h | h
        · exact Or.inl (Or.inr h)
        · exact Or.inr h

/-- A looked-up gate's id is in range afterwards. -/
lemma gateFor_gid_lt (reg : LimiterRegistry) (u : String) (h : RegistryWF reg) :
    (gateFor reg u).gid < (afterLookup reg u).nextId := by
  unfold gateFor afterLookup get_shopify_rate_limiter
  cases hu : reg.table.lookup u with
  | some g =>
    simp only [hu]
    exact h.gidBound (u, g) (lookup_mem hu)
  | none => simp [hu]

lemma nextId_mono_afterLookup (reg : LimiterRegistry) (u : String) :
    reg.nextId ≤ (afterLookup reg u).nextId := by
  unfold afterLookup get_shopify_rate_limiter
  cases hu : reg.table.lookup u with
  | some g => simp [hu]
  | none => simp [hu]

lemma nextId_mono_run (mid : List String) :
    ∀ reg : LimiterRegistry, reg.nextId ≤ (runLimiterLookups reg mid).nextId := by
  induction mid with
  | nil => intro reg; exact Nat.le_refl _
  | cons v rest ih =>
    intro reg
    exact Nat.le_trans (nextId_mono_afterLookup reg v) (ih _)

/-- C9: over any serial history of lookups starting from the module-level
empty registry — `pre` lookups, then a lookup of `u`, then `mid` further
lookups — (1) a later lookup of the same URL returns the identical gate;
(2) a lookup of a different URL `v` returns a different gate; (3) no
registry entry is ever removed; (4) a URL is registered exactly when it
has been looked up (gates are created on first use); and (5) every gate
returned has capacity 1. -/
theorem c9_store_gate_registry (pre mid : List String) (u v : String)
    (huv : u ≠ v) :
    gateFor (runLimiterLookups (afterLookup (runLimiterLookups emptyRegistry pre) u) mid) u
        = gateFor (runLimiterLookups emptyRegistry pre) u
    ∧ gateFor (runLimiterLookups (afterLookup (runLimiterLookups emptyRegistry pre) u) mid) v
        ≠ gateFor (runLimiterLookups emptyRegistry pre) u
    ∧ (∀ e ∈ (runLimiterLookups emptyRegistry pre).table,
        e ∈ (runLimiterLookups (afterLookup (runLimiterLookups emptyRegistry pre) u) mid).table)
    ∧ (∀ w : String,
        (((runLimiterLookups emptyRegistry pre).table.lookup w).isSome ↔ w ∈ pre))
    ∧ (gateFor (runLimiterLookups emptyRegistry pre) u).capacity = 1 := by
  set r1 := runLimiterLookups emptyRegistry pre with hr1
  have hwf1 : RegistryWF r1 := wf_run pre emptyRegistry wf_empty
  have hwfu : RegistryWF (afterLookup r1 u) := wf_afterLookup r1 u hwf1
  set r2 := runLimiterLookups (afterLookup r1 u) mid with hr2
  have hwf2 : RegistryWF r2 := wf_run mid _ hwfu
  have hu1 : (afterLookup r1 u).table.lookup u = some (gateFor r1 u) :=
    afterLookup_lookup r1 u
  have hu2 : r2.table.lookup u = some (gateFor r1 u) :=
    lookup_stable_run mid _ u _ hu1
  have hmemu : (u, gateFor r1 u) ∈ r2.table := lookup_mem hu2
  refine ⟨?_, ?_, ?_, ?_, ?_⟩
  · exact gateFor_of_lookup hu2
  · cases hv2 : r2.table.lookup v with
    | some gv =>
      have hmemv : (v, gv) ∈ r2.table := lookup_mem hv2
      have hgate : gateFor r2 v = gv := gateFor_of_lookup hv2
      rw [hgate]
      intro hcontra
      subst hcontra
      have hid : (fun e : String × StoreGate => e.2.gid) (v, gateFor r1 u)
          = (fun e : String × StoreGate => e.2.gid) (u, gateFor r1 u) := rfl
      have := List.inj_on_of_nodup_map hwf2.gidsNodup hmemv hmemu hid
      exact huv (by simpa using this.symm)
    | none =>
      have hgate : gateFor r2 v = { gid := r2.nextId, capacity := 1 } :=
        gateFor_of_lookup_none hv2
      rw [hgate]
      intro hcontra
      have hlt : (gateFor r1 u).gid < r2.nextId :=
        Nat.lt_of_lt_of_le (gateFor_gid_lt r1 u hwf1) (nextId_mono_run mid _)
      rw [← hcontra] at hlt
      exact Nat.lt_irrefl _ hlt
  · intro e he
    exact table_sub_run mid _ e (table_sub_afterLookup r1 u he)
  · intro w
    rw [hr1, registered_iff_run]
    simp [emptyRegistry, List.lookup]
  · cases hu0 : r1.table.lookup u with
    | some g =>
      rw [gateFor_of_lookup hu0]
      exact hwf1.capOne (u, g) (lookup_mem hu0)
    | none => rw [gateFor_of_lookup_none hu0]

/-- C9 witness: from the empty registry, looking `storeA` up twice with a
`storeB` lookup in between returns the identical gate both times, while
`storeB` gets a different gate; both gates have capacity 1. -/
theorem c9_witness :
    ("storeA" : String) ≠ "storeB"
    ∧ gateFor (runLimiterLookups (afterLookup (runLimiterLookups emptyRegistry [])
          "storeA") ["storeB"]) "storeA"
        = gateFor (runLimiterLookups emptyRegistry []) "storeA"
    ∧ gateFor (runLimiterLookups (afterLookup (runLimiterLookups emptyRegistry [])
          "storeA") ["storeB"]) "storeB"
        ≠ gateFor (runLimiterLookups emptyRegistry []) "storeA"
    ∧ (gateFor (runLimiterLookups emptyRegistry []) "storeA").capacity = 1 := by
  have h := c9_store_gate_registry [] ["storeB"] "storeA" "storeB" (by decide)
  exact ⟨by decide, h.1, h.2.1, h.2.2.2.2⟩

end ProductsAdd
